import Mathlib

/-!
Shallow embedding of the competition-intelligence platform.

Source files:
  * `competition_data.py` — `CompetitionDataGenerator` (products/regions/companies
    enumerations, `generate_comprehensive_data`, `apply_scenarios`,
    `generate_complaints`, `generate_market_share`, `get_scenario_type`),
    plus the free functions `get_analysis_insights` and `get_statistical_summary`.
  * `app.py` — a second, smaller `CompetitionDataGenerator.generate_data`
    (5 products × 5 regions × 4 companies, dates 2024-01-01 … 2024-03-31, no
    scenario label column) and `detect_anomalies_simple`.

Modelling conventions:
  * Dates: every date in the program lies in the year 2024, so a date is its
    serial day number within 2024 (`dateOf 1 1 = 1`, `dateOf 12 31 = 366`;
    2024 is a leap year).  `datetime` comparison is `Nat` comparison;
    `pd.date_range(a, b, freq=d)` is the inclusive list `[a, a+1, …, b]`.
  * Floats are modelled as `ℚ`.  Python's `round(x, 2)` (round half to even)
    is `round2`.
  * NumPy's globally seeded RNG (`np.random.seed(42)` at the top of each
    generator) is a `RandomSource`: the value of the `n`-th RNG call, given
    the distribution it asks for.  Generation threads the call counter `n`
    explicitly, one increment per draw, in the source's call order; any fixed
    seed corresponds to one concrete `RandomSource`.
  * NumPy's `poisson` returns a non-negative integer, hence `ℕ`.
  * pandas reductions over an empty column give NaN, and every comparison
    with NaN is `False`; a NaN-able statistic is an `Option ℚ` (`none` = NaN)
    and `gtNaN` is the `>` comparison against it.
-/

/-- Serial day number within the year 2024 (1 = Jan 1, 366 = Dec 31). -/
abbrev Date := Nat

/-- Month lengths of the (leap) year 2024. -/
def monthLengths2024 : List Nat := [31, 29, 31, 30, 31, 30, 31, 31, 30, 31, 30, 31]

/-- Serial day of `datetime(2024, month, day)`. -/
def dateOf (month day : Nat) : Date := (monthLengths2024.take (month - 1)).sum + day

/-- Inclusive daily range, as produced by `pd.date_range(start, stop, freq='D')`. -/
def date_range (start stop : Date) : List Date := (List.range (stop + 1 - start)).map (start + ·)

/-- Value of the `n`-th call of the seeded NumPy RNG, by requested
distribution: `normal n mean std` for `np.random.normal(mean, std)` and
`poisson n lam` for `np.random.poisson(lam)`.  A fixed seed yields one fixed
`RandomSource`. -/
structure RandomSource where
  normal : Nat → ℚ → ℚ → ℚ
  poisson : Nat → Nat → Nat

/-- The `RandomSource` whose every draw is 0. -/
def zeroSrc : RandomSource := ⟨fun _ _ _ => 0, fun _ _ => 0⟩

/-- A `RandomSource` returning each distribution's nominal parameter (mean /
lambda) at every call. -/
def lamSrc : RandomSource := ⟨fun _ mean _ => mean, fun _ lam => lam⟩

/-- Round half to even on integers: `roundHalfEven q` is the integer Python's
`round` would pick for the real value `q`. -/
def roundHalfEven (q : ℚ) : ℤ :=
  if q - ⌊q⌋ < 1 / 2 then ⌊q⌋
  else if 1 / 2 < q - ⌊q⌋ then ⌊q⌋ + 1
  else if ⌊q⌋ % 2 = 0 then ⌊q⌋ else ⌊q⌋ + 1

/-- Python's `round(q, 2)`. -/
def round2 (q : ℚ) : ℚ := (roundHalfEven (q * 100) : ℚ) / 100

/-! ### competition_data.py — enumerations and string constants -/

/-- Enumeration `self.products` of `competition_data.py` (sugar, rice, cooking oil, flour,
coffee, tea, milk, bread). -/
def products : List String :=
  ["سكر", "أرز", "زيت طهي", "دقيق", "قهوة", "شاي", "حليب", "خبز"]

/-- Enumeration `self.regions` of `competition_data.py` (Riyadh, Jeddah, Dammam, Mecca,
Medina, Qassim, Asir, Hail). -/
def regions : List String :=
  ["الرياض", "جدة", "الدمام", "مكة", "المدينة", "القصيم", "عسير", "حائل"]

/-- Enumeration `self.companies` of `competition_data.py`. -/
def companies : List String :=
  ["شركة الأغذية الوطنية", "مؤسسة التسويق الحديث", "شركة التوزيع المتكامل",
   "مجموعة الأسواق المركزية", "شركة المستهلك المتحدة", "مؤسسة التجارة المتطورة",
   "شركة التجزئة الكبرى", "مجموعة التموين الشامل"]

/-- Region "Riyadh". -/
def riyadh : String := "الرياض"
/-- Region "Jeddah". -/
def jeddah : String := "جدة"
/-- Region "Hail". -/
def hail : String := "حائل"
/-- Company "National Food Co.". -/
def nfc : String := "شركة الأغذية الوطنية"
/-- Company "Modern Marketing Est.". -/
def modernMarketing : String := "مؤسسة التسويق الحديث"
/-- Company "Integrated Distribution Co.". -/
def integratedDist : String := "شركة التوزيع المتكامل"
/-- Company "Central Markets Group". -/
def centralMarkets : String := "مجموعة الأسواق المركزية"
/-- Company "United Consumer Co.". -/
def unitedConsumer : String := "شركة المستهلك المتحدة"
/-- Company "Comprehensive Supply Group". -/
def comprehensiveSupply : String := "مجموعة التموين الشامل"
/-- Product "sugar". -/
def sugar : String := "سكر"
/-- Product "flour". -/
def flour : String := "دقيق"
/-- Product "cooking oil". -/
def cookingOil : String := "زيت طهي"
/-- Product "coffee". -/
def coffee : String := "قهوة"
/-- Product "milk". -/
def milk : String := "حليب"
/-- Product "bread". -/
def bread : String := "خبز"

/-- Scenario label "unjustified price increase". -/
def labelUnjustified : String := "ارتفاع أسعار غير مبرر"
/-- Scenario label "suspicious price drop (dumping)". -/
def labelDumping : String := "انخفاض أسعار مشبوه (إغراق)"
/-- Scenario label "synchronized price change (collusion)". -/
def labelCollusion : String := "تغير أسعار متزامن (تكتل)"
/-- Scenario label "geographic price disparity". -/
def labelGeographic : String := "تفاوت أسعار جغرافي"
/-- Scenario label "severe price volatility". -/
def labelVolatility : String := "تقلبات أسعار شديدة"
/-- Scenario label "normal". -/
def labelNormal : String := "طبيعي"

/-- The `base_prices` dict of `generate_comprehensive_data`.  A product
outside the dict would raise `KeyError` in the source; the generator only
ever looks up members of `products`, so the final else-branch is never
reached there. -/
def base_prices (product : String) : ℚ :=
  if product = "سكر" then 7/2
  else if product = "أرز" then 8
  else if product = "زيت طهي" then 15
  else if product = "دقيق" then 5/2
  else if product = "قهوة" then 25
  else if product = "شاي" then 12
  else if product = "حليب" then 4
  else if product = "خبز" then 1
  else 0

/-! ### competition_data.py — scenario rule set -/

/-- Embeds `CompetitionDataGenerator.apply_scenarios`.  Returns the price together
with the RNG call counter after the call (branches 1–4 draw nothing;
branches 5 and 6 each consume one normal draw).  The chain ends with
`return max(price, base_price * 0.5)`. -/
def apply_scenarios (src : RandomSource) (n : Nat) (date : Date)
    (product region company : String) (base_price : ℚ) : ℚ × Nat :=
  let pn : ℚ × Nat :=
    if region = riyadh ∧ company = nfc ∧ dateOf 6 1 ≤ date ∧ date ≤ dateOf 8 31 then
      (base_price * (14/10), n)
    else if region = jeddah ∧ company = modernMarketing
        ∧ dateOf 3 1 ≤ date ∧ date ≤ dateOf 5 31 then
      (base_price * (6/10), n)
    else if product ∈ [sugar, flour] ∧ dateOf 9 1 ≤ date
        ∧ company ∈ [integratedDist, centralMarkets, unitedConsumer] then
      (base_price * (5/4), n)
    else if region = hail ∧ product = cookingOil then
      (base_price * (13/10), n)
    else if company = comprehensiveSupply ∧ product = coffee then
      (base_price * (1 + src.normal n 0 (2/10)), n + 1)
    else
      (base_price * (1 + src.normal n 0 (5/100)), n + 1)
  (max pn.1 (base_price * (1/2)), pn.2)

/-- Embeds `CompetitionDataGenerator.generate_complaints`.  `base_complaints` is a
Poisson(2) draw, boosted by a Poisson(5) draw for Riyadh × National Food Co.
from June 1 on (no upper date bound in the source), or by a Poisson(3) draw
for Modern Marketing × milk/bread; the source returns
`max(base_complaints, 0)`. -/
def generate_complaints (src : RandomSource) (n : Nat) (date : Date)
    (product region company : String) : Nat × Nat :=
  let base := src.poisson n 2
  let tn : Nat × Nat :=
    if region = riyadh ∧ company = nfc ∧ dateOf 6 1 ≤ date then
      (base + src.poisson (n + 1) 5, n + 2)
    else if company = modernMarketing ∧ product ∈ [milk, bread] then
      (base + src.poisson (n + 1) 3, n + 2)
    else
      (base, n + 1)
  (max tn.1 0, tn.2)

/-- Embeds `CompetitionDataGenerator.generate_market_share`.  The source always
draws `np.random.normal(12.5, 3)` first, then conditionally overwrites it by
a second draw, and clamps with `max(min(base_share, 50), 1)`. -/
def generate_market_share (src : RandomSource) (n : Nat)
    (product region company : String) : ℚ × Nat :=
  let b0 := src.normal n (25/2) 3
  let bn : ℚ × Nat :=
    if company = nfc ∧ region = riyadh ∧ product ∈ [sugar, flour] then
      (src.normal (n + 1) 35 5, n + 2)
    else if region = jeddah ∧ product = coffee then
      (src.normal (n + 1) 8 2, n + 2)
    else
      (b0, n + 1)
  (max (min bn.1 50) 1, bn.2)

/-- Embeds `CompetitionDataGenerator.get_scenario_type`: a pure first-match-wins
chain.  Branches 1 and 2 only test a lower date bound in the source
(`date >= datetime(2024, 6, 1)` resp. `date >= datetime(2024, 3, 1)`), with
no upper bound. -/
def get_scenario_type (date : Date) (product region company : String) : String :=
  if region = riyadh ∧ company = nfc ∧ dateOf 6 1 ≤ date then
    labelUnjustified
  else if region = jeddah ∧ company = modernMarketing ∧ dateOf 3 1 ≤ date then
    labelDumping
  else if product ∈ [sugar, flour] ∧ dateOf 9 1 ≤ date
      ∧ company ∈ [integratedDist, centralMarkets, unitedConsumer] then
    labelCollusion
  else if region = hail ∧ product = cookingOil then
    labelGeographic
  else if company = comprehensiveSupply ∧ product = coffee then
    labelVolatility
  else
    labelNormal

/-! ### competition_data.py — the generated table -/

/-- One row appended by `generate_comprehensive_data`'s inner loop. -/
structure Obs where
  date : Date
  product : String
  region : String
  company : String
  price : ℚ
  complaint_count : Nat
  market_share : ℚ
  scenario_type : String
deriving DecidableEq, Repr

/-- One (date, product, region, company) loop combination, nested as the
source nests its four `for` loops. -/
abbrev Key := Date × String × String × String

/-- The row built for one loop combination, with the RNG counter after the
three stochastic calls (`apply_scenarios`, then `generate_complaints`, then
`generate_market_share`, in source order). -/
def makeRow (src : RandomSource) (n : Nat) (date : Date)
    (product region company : String) : Obs × Nat :=
  let s1 := apply_scenarios src n date product region company (base_prices product)
  let s2 := generate_complaints src s1.2 date product region company
  let s3 := generate_market_share src s2.2 product region company
  (⟨date, product, region, company, round2 s1.1, s2.1, round2 s3.1,
    get_scenario_type date product region company⟩, s3.2)

/-- The `data` list built by the nested loops, threading the RNG counter row
by row. -/
def genRows (src : RandomSource) : Nat → List Key → List Obs
  | _, [] => []
  | n, k :: ks =>
    let rn := makeRow src n k.1 k.2.1 k.2.2.1 k.2.2.2
    rn.1 :: genRows src rn.2 ks

/-- The nested `for date / for product / for region / for company` loop order
as one flat key list. -/
def allKeys (dates : List Date) : List Key :=
  dates ×ˢ (products ×ˢ (regions ×ˢ companies))

/-- The table `generate_comprehensive_data` builds over a given date list
(the source fixes the list to all of 2024; `generate_comprehensive_data`
below instantiates it). -/
def generateTable (src : RandomSource) (dates : List Date) : List Obs :=
  genRows src 0 (allKeys dates)

/-- Embeds `CompetitionDataGenerator.generate_comprehensive_data`: the full table
over `pd.date_range('2024-01-01', '2024-12-31')`.  `np.random.seed(42)` at
the top fixes the RNG; `src` is the stream that seed produces. -/
def generate_comprehensive_data (src : RandomSource) : List Obs :=
  generateTable src (date_range (dateOf 1 1) (dateOf 12 31))

/-! ### competition_data.py — analytics -/

/-- Mean of a pandas numeric column: NaN (`none`) on an empty column. -/
def pmean (xs : List ℚ) : Option ℚ :=
  if xs.isEmpty then none else some (xs.sum / xs.length)

/-- Comparison `x > t` where `t` may be NaN (`none`): every comparison with
NaN is `False` in pandas. -/
def gtNaN (x : ℚ) : Option ℚ → Bool
  | none => false
  | some t => decide (t < x)

/-- First-occurrence deduplication, as `pandas.Series.unique` orders its
result. -/
def pdUnique (xs : List String) : List String :=
  xs.foldl (fun acc x => if x ∈ acc then acc else acc ++ [x]) []

/-- One alert of `get_analysis_insights`.  The source's `description` is an
f-string embedding `len(high_price_data)`; the embedded count is kept as the
`descriptionCount` field. -/
structure Insight where
  type : String
  title : String
  descriptionCount : Nat
  companies : List String
  products : List String
  regions : List String
deriving DecidableEq, Repr

/-- Embeds `get_analysis_insights`: rows labelled "unjustified price increase" whose
price exceeds 1.3 × the mean price of the "normal"-labelled rows (a NaN mean,
from an empty "normal" set, makes the comparison `False` for every row). -/
def get_analysis_insights (df : List Obs) : List Insight :=
  let normal_mean := pmean ((df.filter (fun r => r.scenario_type == labelNormal)).map Obs.price)
  let high_price_data := df.filter fun r =>
    r.scenario_type == labelUnjustified
      && gtNaN r.price (normal_mean.map (· * (13/10)))
  if high_price_data.isEmpty then []
  else
    [⟨"تحذير", labelUnjustified, high_price_data.length,
      pdUnique (high_price_data.map Obs.company),
      pdUnique (high_price_data.map Obs.product),
      pdUnique (high_price_data.map Obs.region)⟩]

/-- The record returned by `get_statistical_summary`.  `strftime` formatting
of the two dates is elided (the dates themselves are kept); the orderings
pandas applies inside `groupby().mean().to_dict()` and `value_counts()` are
elided in favour of first-occurrence order, which the claims do not
inspect. -/
structure Summary where
  total_records : Nat
  date_range_start : Date
  date_range_stop : Date
  products_count : Nat
  regions_count : Nat
  companies_count : Nat
  total_complaints : Nat
  avg_price_by_product : List (String × ℚ)
  scenario_distribution : List (String × Nat)
deriving DecidableEq, Repr

/-- Embeds `get_statistical_summary`.  On an empty table `df['date'].min()` /
`.max()` are NaT and `.strftime('%Y-%m-%d')` raises `ValueError`; the raise
is the `none` branch. -/
def get_statistical_summary (df : List Obs) : Option Summary :=
  match (df.map Obs.date).min?, (df.map Obs.date).max? with
  | some lo, some hi =>
    some ⟨df.length, lo, hi,
      (pdUnique (df.map Obs.product)).length,
      (pdUnique (df.map Obs.region)).length,
      (pdUnique (df.map Obs.company)).length,
      (df.map Obs.complaint_count).sum,
      (pdUnique (df.map Obs.product)).map fun p =>
        (p, ((df.filter (fun r => r.product == p)).map Obs.price).sum
              / ((df.filter (fun r => r.product == p)).length : ℚ)),
      (pdUnique (df.map Obs.scenario_type)).map fun s =>
        (s, (df.filter (fun r => r.scenario_type == s)).length)⟩
  | _, _ => none

/-! ### app.py — the in-app generator and anomaly detector -/

namespace App

/-- Enumeration `self.products` of `app.py` (5 products). -/
def products : List String := ["سكر", "أرز", "زيت طهي", "دقيق", "قهوة"]

/-- Enumeration `self.regions` of `app.py` (5 regions). -/
def regions : List String := ["الرياض", "جدة", "الدمام", "مكة", "المدينة"]

/-- Enumeration `self.companies` of `app.py` (4 companies). -/
def companies : List String :=
  ["شركة الأغذية الوطنية", "مؤسسة التسويق الحديث",
   "شركة التوزيع المتكامل", "مجموعة الأسواق المركزية"]

/-- The `base_prices` dict of `app.py`'s `generate_data`. -/
def base_prices (product : String) : ℚ :=
  if product = "سكر" then 7/2
  else if product = "أرز" then 8
  else if product = "زيت طهي" then 15
  else if product = "دقيق" then 5/2
  else if product = "قهوة" then 25
  else 0

/-- One row of `app.py`'s table.  `generate_data` appends no scenario label;
`is_anomaly` models the extra column `detect_anomalies_simple` assigns
(`none` = column absent, as generated). -/
structure Row where
  date : Date
  product : String
  region : String
  company : String
  price : ℚ
  complaint_count : Nat
  market_share : ℚ
  is_anomaly : Option Bool
deriving DecidableEq, Repr

/-- The row built by one iteration of `generate_data`'s inner loop: the
scenario multipliers (Riyadh × National Food Co. → ×1.3, Jeddah × Modern
Marketing → ×0.7), one normal(0, 0.05) noise draw, the `max(price,
base_price * 0.8)` floor, a Poisson(2) complaint draw and a normal(15, 5)
market share clamped to [5, 40]. -/
def makeRow (src : RandomSource) (n : Nat) (date : Date)
    (product region company : String) : Row × Nat :=
  let base_price := base_prices product
  let price0 : ℚ :=
    if region = riyadh ∧ company = nfc then base_price * (13/10)
    else if region = jeddah ∧ company = modernMarketing then base_price * (7/10)
    else base_price
  let price1 := price0 * (1 + src.normal n 0 (5/100))
  let price2 := max price1 (base_price * (8/10))
  let complaint_count := src.poisson (n + 1) 2
  let market_share0 := src.normal (n + 2) 15 5
  let market_share := max (min market_share0 40) 5
  (⟨date, product, region, company, round2 price2, complaint_count,
    round2 market_share, none⟩, n + 3)

/-- The `data` list of `generate_data`'s nested loops. -/
def genRows (src : RandomSource) : Nat → List Key → List Row
  | _, [] => []
  | n, k :: ks =>
    let rn := makeRow src n k.1 k.2.1 k.2.2.1 k.2.2.2
    rn.1 :: genRows src rn.2 ks

/-- Embeds `CompetitionDataGenerator.generate_data` of `app.py`: dates
`pd.date_range('2024-01-01', '2024-03-31')`, nested over 5 products ×
5 regions × 4 companies.  `np.random.seed(42)` fixes the RNG; `src` is the
stream that seed produces. -/
def generate_data (src : RandomSource) : List Row :=
  genRows src 0
    (date_range (dateOf 1 1) (dateOf 3 31) ×ˢ (products ×ˢ (regions ×ˢ companies)))

/-- Sample standard deviation of a pandas column (`ddof = 1`): NaN (`none`)
with fewer than two observations.  The exact real square root is irrational
over ℚ, so the library's square root is the oracle `sq`. -/
def pstd (sq : ℚ → ℚ) (xs : List ℚ) : Option ℚ :=
  if xs.length ≤ 1 then none
  else some (sq (((xs.map fun x => (x - xs.sum / xs.length) ^ 2).sum) / (xs.length - 1)))

/-- Embeds `detect_anomalies_simple` of `app.py`.  The source assigns
`df['is_anomaly'] = df['price'] > threshold` on the frame it was passed —
an in-place pandas column assignment — and returns that same frame.  The
result pair is (returned frame, state of the caller's frame after the
call); both are the one mutated object.  A NaN mean or std makes the
threshold NaN, and `price > NaN` is `False`. -/
def detect_anomalies_simple (sq : ℚ → ℚ) (df : List Row) : List Row × List Row :=
  let price_mean := pmean (df.map Row.price)
  let price_std := pstd sq (df.map Row.price)
  let threshold : Option ℚ :=
    match price_mean, price_std with
    | some m, some s => some (m + 2 * s)
    | _, _ => none
  let res := df.map fun r => { r with is_anomaly := some (gtNaN r.price threshold) }
  (res, res)

/-- A row with the `is_anomaly` column dropped: the shape rows have before
`detect_anomalies_simple` touches the frame. -/
def stripFlag (r : Row) : Row := { r with is_anomaly := none }

end App

/-! ### Concrete instances used by the proofs below -/

/-- The (date, product, region, company) key of a row. -/
def keyOf (r : Obs) : Key := (r.date, r.product, r.region, r.company)

/-- The first row the generator produces on a one-day date list and the
all-zero random stream. -/
def obsW : Obs :=
  ⟨dateOf 1 1, "سكر", "الرياض", "شركة الأغذية الوطنية", 7/2, 0, 1, "طبيعي"⟩

/-- The library square root as a concrete oracle: identically zero (only
ever applied to 0 in the witnesses below). -/
def sqZero : ℚ → ℚ := fun _ => 0

/-- A one-row table without the anomaly column. -/
def rowW : App.Row :=
  ⟨dateOf 1 1, "سكر", "الرياض", "شركة الأغذية الوطنية", 1, 0, 10, none⟩

/-- A two-row table with equal prices, for the C8 witness. -/
def dfW2 : List App.Row :=
  [⟨dateOf 1 1, "سكر", "الرياض", "شركة الأغذية الوطنية", 1, 0, 10, none⟩,
   ⟨dateOf 1 2, "سكر", "الرياض", "شركة الأغذية الوطنية", 1, 0, 10, none⟩]

/-- The first output row of the detector on `dfW2`. -/
def rowW2 : App.Row :=
  ⟨dateOf 1 1, "سكر", "الرياض", "شركة الأغذية الوطنية", 1, 0, 10, some false⟩

/-- A one-row table whose only row carries the rule-1 label. -/
def dfNoNormal : List Obs :=
  [⟨dateOf 6 5, "سكر", "الرياض", "شركة الأغذية الوطنية", 49/10, 7, 35, "ارتفاع أسعار غير مبرر"⟩]

/-! ### Theorems -/

/-! ### Rounding bounds -/

theorem roundHalfEven_ge (k : ℤ) (q : ℚ) (h : (k : ℚ) ≤ q) : k ≤ roundHalfEven q := by
  have hk : k ≤ ⌊q⌋ := Int.le_floor.mpr h
  unfold roundHalfEven
  split_ifs <;> omega

theorem roundHalfEven_le (k : ℤ) (q : ℚ) (h : q ≤ (k : ℚ)) : roundHalfEven q ≤ k := by
  have hk : ⌊q⌋ ≤ k := by
    have := Int.floor_le_floor h
    simpa using this
  have hlt : ¬ q - ⌊q⌋ < 1 / 2 → ⌊q⌋ < k := by
    intro hge
    rcases lt_or_eq_of_le hk with h' | h'
    · exact h'
    · exfalso
      apply hge
      have hq : q = (⌊q⌋ : ℚ) := le_antisymm (h.trans_eq (by rw [h'])) (Int.floor_le q)
      rw [← hq, sub_self]
      norm_num
  unfold roundHalfEven
  split_ifs with h1 h2 h3
  · exact hk
  · have h4 := hlt h1
    omega
  · exact hk
  · have h4 := hlt h1
    omega

theorem round2_ge (k : ℤ) (q : ℚ) (h : (k : ℚ) / 100 ≤ q) : (k : ℚ) / 100 ≤ round2 q := by
  unfold round2
  have h' : (k : ℚ) ≤ q * 100 := by linarith
  have := roundHalfEven_ge k (q * 100) h'
  have hc : (k : ℚ) ≤ (roundHalfEven (q * 100) : ℚ) := by exact_mod_cast this
  linarith

theorem round2_le (k : ℤ) (q : ℚ) (h : q ≤ (k : ℚ) / 100) : round2 q ≤ (k : ℚ) / 100 := by
  unfold round2
  have h' : q * 100 ≤ (k : ℚ) := by linarith
  have := roundHalfEven_le k (q * 100) h'
  have hc : (roundHalfEven (q * 100) : ℚ) ≤ (k : ℚ) := by exact_mod_cast this
  linarith

/-! ### Structure of the generated tables -/

theorem genRows_length (src : RandomSource) : ∀ (ks : List Key) (n : Nat),
    (genRows src n ks).length = ks.length := by
  intro ks
  induction ks with
  | nil => intro n; rfl
  | cons k ks ih => intro n; simp [genRows, ih]

theorem keyOf_makeRow (src : RandomSource) (n : Nat) (d : Date) (p rg c : String) :
    keyOf (makeRow src n d p rg c).1 = (d, p, rg, c) := rfl

theorem genRows_map_keyOf (src : RandomSource) : ∀ (ks : List Key) (n : Nat),
    (genRows src n ks).map keyOf = ks := by
  intro ks
  induction ks with
  | nil => intro n; rfl
  | cons k ks ih =>
    intro n
    show ((makeRow src n k.1 k.2.1 k.2.2.1 k.2.2.2).1 ::
        genRows src (makeRow src n k.1 k.2.1 k.2.2.1 k.2.2.2).2 ks).map keyOf = k :: ks
    rw [List.map_cons, keyOf_makeRow, ih]


theorem allKeys_length (dates : List Date) :
    (allKeys dates).length = dates.length * (products.length * (regions.length * companies.length)) := by
  unfold allKeys
  rw [List.length_product, List.length_product, List.length_product]

theorem allKeys_nodup (dates : List Date) (h : dates.Nodup) : (allKeys dates).Nodup := by
  unfold allKeys
  exact h.product ((by decide : products.Nodup).product
    ((by decide : regions.Nodup).product (by decide : companies.Nodup)))

theorem mem_allKeys_product (dates : List Date) (k : Key) (hk : k ∈ allKeys dates) :
    k.2.1 ∈ products := by
  obtain ⟨d, p, rg, c⟩ := k
  unfold allKeys at hk
  rw [List.mem_product] at hk
  rw [List.mem_product] at hk
  exact hk.2.1

/-! ### Row invariants -/

theorem apply_scenarios_fst_ge (src : RandomSource) (n : Nat) (d : Date)
    (p rg c : String) (bp : ℚ) : bp * (1/2) ≤ (apply_scenarios src n d p rg c bp).1 :=
  le_max_right _ _

theorem generate_market_share_fst_ge (src : RandomSource) (n : Nat)
    (p rg c : String) : 1 ≤ (generate_market_share src n p rg c).1 :=
  le_max_right _ _

theorem generate_market_share_fst_le (src : RandomSource) (n : Nat)
    (p rg c : String) : (generate_market_share src n p rg c).1 ≤ 50 :=
  max_le (min_le_right _ _) (by norm_num)

theorem base_prices_sugar : base_prices ("سكر") = 7/2 := by
  unfold base_prices; rw [if_pos rfl]

theorem base_prices_rice : base_prices ("أرز") = 8 := by
  unfold base_prices; rw [if_neg (by decide), if_pos rfl]

theorem base_prices_oil : base_prices ("زيت طهي") = 15 := by
  unfold base_prices; rw [if_neg (by decide), if_neg (by decide), if_pos rfl]

theorem base_prices_flour : base_prices ("دقيق") = 5/2 := by
  unfold base_prices
  rw [if_neg (by decide), if_neg (by decide), if_neg (by decide), if_pos rfl]

theorem base_prices_coffee : base_prices ("قهوة") = 25 := by
  unfold base_prices
  rw [if_neg (by decide), if_neg (by decide), if_neg (by decide), if_neg (by decide), if_pos rfl]

theorem base_prices_tea : base_prices ("شاي") = 12 := by
  unfold base_prices
  rw [if_neg (by decide), if_neg (by decide), if_neg (by decide), if_neg (by decide),
    if_neg (by decide), if_pos rfl]

theorem base_prices_milk : base_prices ("حليب") = 4 := by
  unfold base_prices
  rw [if_neg (by decide), if_neg (by decide), if_neg (by decide), if_neg (by decide),
    if_neg (by decide), if_neg (by decide), if_pos rfl]

theorem base_prices_bread : base_prices ("خبز") = 1 := by
  unfold base_prices
  rw [if_neg (by decide), if_neg (by decide), if_neg (by decide), if_neg (by decide),
    if_neg (by decide), if_neg (by decide), if_neg (by decide), if_pos rfl]

theorem base_half_denom (p : String) (hp : p ∈ products) :
    ∃ k : ℤ, 0 < k ∧ base_prices p * (1/2) = (k : ℚ) / 100 := by
  fin_cases hp
  · exact ⟨175, by norm_num, by rw [base_prices_sugar]; norm_num⟩
  · exact ⟨400, by norm_num, by rw [base_prices_rice]; norm_num⟩
  · exact ⟨750, by norm_num, by rw [base_prices_oil]; norm_num⟩
  · exact ⟨125, by norm_num, by rw [base_prices_flour]; norm_num⟩
  · exact ⟨1250, by norm_num, by rw [base_prices_coffee]; norm_num⟩
  · exact ⟨600, by norm_num, by rw [base_prices_tea]; norm_num⟩
  · exact ⟨200, by norm_num, by rw [base_prices_milk]; norm_num⟩
  · exact ⟨50, by norm_num, by rw [base_prices_bread]; norm_num⟩

theorem makeRow_inv (src : RandomSource) (n : Nat) (d : Date) (p rg c : String)
    (hp : p ∈ products) :
    0 < (makeRow src n d p rg c).1.price ∧
    base_prices p * (1/2) ≤ (makeRow src n d p rg c).1.price ∧
    1 ≤ (makeRow src n d p rg c).1.market_share ∧
    (makeRow src n d p rg c).1.market_share ≤ 50 := by
  obtain ⟨k, hk, hke⟩ := base_half_denom p hp
  have hprice : (makeRow src n d p rg c).1.price
      = round2 (apply_scenarios src n d p rg c (base_prices p)).1 := rfl
  have hge := apply_scenarios_fst_ge src n d p rg c (base_prices p)
  have hp2 : (k : ℚ) / 100 ≤ round2 (apply_scenarios src n d p rg c (base_prices p)).1 :=
    round2_ge k _ (hke ▸ hge)
  have hkpos : (0 : ℚ) < (k : ℚ) / 100 := by positivity
  refine ⟨?_, ?_, ?_, ?_⟩
  · rw [hprice]; exact lt_of_lt_of_le hkpos hp2
  · rw [hprice, hke]; exact hp2
  · show (1 : ℚ) ≤ round2 (generate_market_share src _ p rg c).1
    have h1 := generate_market_share_fst_ge src
      (generate_complaints src (apply_scenarios src n d p rg c (base_prices p)).2 d p rg c).2 p rg c
    have := round2_ge 100 (generate_market_share src
      (generate_complaints src (apply_scenarios src n d p rg c (base_prices p)).2 d p rg c).2 p rg c).1
      (by push_cast; linarith)
    push_cast at this
    linarith
  · show round2 (generate_market_share src _ p rg c).1 ≤ (50 : ℚ)
    have h1 := generate_market_share_fst_le src
      (generate_complaints src (apply_scenarios src n d p rg c (base_prices p)).2 d p rg c).2 p rg c
    have := round2_le 5000 (generate_market_share src
      (generate_complaints src (apply_scenarios src n d p rg c (base_prices p)).2 d p rg c).2 p rg c).1
      (by push_cast; linarith)
    push_cast at this
    linarith

theorem genRows_inv : ∀ (ks : List Key) (src : RandomSource) (n : Nat),
    (∀ k ∈ ks, k.2.1 ∈ products) → ∀ r ∈ genRows src n ks,
    0 < r.price ∧ base_prices r.product * (1/2) ≤ r.price ∧
    1 ≤ r.market_share ∧ r.market_share ≤ 50 := by
  intro ks
  induction ks with
  | nil => intro src n _ r hr; simp [genRows] at hr
  | cons k ks ih =>
    intro src n h r hr
    rw [genRows] at hr
    rcases List.mem_cons.mp hr with h1 | h1
    · have hp := h k (List.mem_cons_self k ks)
      have hinv := makeRow_inv src n k.1 k.2.1 k.2.2.1 k.2.2.2 hp
      rw [h1]
      exact hinv
    · exact ih src _ (fun k' hk' => h k' (List.mem_cons_of_mem _ hk')) r h1

/-- C5: every generated table has |dates| × |products| × |regions| × |companies|
rows and no (date, product, region, company) key appears more than once. -/
theorem C5_cross_product_unique (src : RandomSource) (dates : List Date)
    (h : dates.Nodup) :
    (generateTable src dates).length
      = dates.length * (products.length * (regions.length * companies.length)) ∧
    ((generateTable src dates).map keyOf).Nodup := by
  constructor
  · rw [generateTable, genRows_length, allKeys_length]
  · rw [generateTable, genRows_map_keyOf]
    exact allKeys_nodup dates h

/-- Witness for C5 at a one-day date list and the all-zero random stream. -/
theorem C5_cross_product_unique_witness :
    (generateTable zeroSrc [dateOf 1 1]).length
      = [dateOf 1 1].length * (products.length * (regions.length * companies.length)) ∧
    ((generateTable zeroSrc [dateOf 1 1]).map keyOf).Nodup :=
  C5_cross_product_unique zeroSrc [dateOf 1 1] (by decide)

/-- C6: every row of every generated table has a positive price no lower than
half the product's base price, a market share in [1, 50], and a non-negative
complaint count. -/
theorem C6_row_invariants (src : RandomSource) (dates : List Date) (r : Obs)
    (hr : r ∈ generateTable src dates) :
    0 < r.price ∧ base_prices r.product * (1/2) ≤ r.price ∧
    1 ≤ r.market_share ∧ r.market_share ≤ 50 ∧ 0 ≤ r.complaint_count := by
  have h := genRows_inv (allKeys dates) src 0
    (fun k hk => mem_allKeys_product dates k hk) r hr
  exact ⟨h.1, h.2.1, h.2.2.1, h.2.2.2, Nat.zero_le _⟩

set_option maxRecDepth 4000 in
/-- Witness for C6 at a concrete generated row. -/
theorem C6_row_invariants_witness :
    0 < obsW.price ∧ base_prices obsW.product * (1/2) ≤ obsW.price ∧
    1 ≤ obsW.market_share ∧ obsW.market_share ≤ 50 ∧ 0 ≤ obsW.complaint_count :=
  C6_row_invariants zeroSrc [dateOf 1 1] obsW (by with_unfolding_all decide)

/-- C7: the generator is deterministic — two runs whose seeded random streams
agree call-by-call produce identical tables. -/
theorem C7_determinism (src₁ src₂ : RandomSource)
    (hn : ∀ n mean std, src₁.normal n mean std = src₂.normal n mean std)
    (hp : ∀ n lam, src₁.poisson n lam = src₂.poisson n lam) :
    generate_comprehensive_data src₁ = generate_comprehensive_data src₂ := by
  have hsrc : src₁ = src₂ := by
    cases src₁ with
    | mk f g =>
      cases src₂ with
      | mk f' g' =>
        have hf : f = f' := by funext n mean std; exact hn n mean std
        have hg : g = g' := by funext n lam; exact hp n lam
        rw [hf, hg]
  rw [hsrc]

/-- Witness for C7: two identical seeded streams. -/
theorem C7_determinism_witness :
    generate_comprehensive_data zeroSrc = generate_comprehensive_data zeroSrc :=
  C7_determinism zeroSrc zeroSrc (fun _ _ _ => rfl) (fun _ _ => rfl)

/-! ### Scope of scenario rule 1 (Riyadh × National Food Co.) -/

/-- C1 counterexample: September 15 lies outside [Jun 1, Aug 31], yet the
rule-1 label is still assigned and the extra Poisson(5) complaints are still
added (here with the stream returning each Poisson parameter: 2 + 5 = 7,
two draws consumed). -/
theorem C1_counterexample :
    ¬ (dateOf 6 1 ≤ dateOf 9 15 ∧ dateOf 9 15 ≤ dateOf 8 31) ∧
    get_scenario_type (dateOf 9 15) ("سكر") riyadh nfc = labelUnjustified ∧
    generate_complaints lamSrc 0 (dateOf 9 15) ("سكر") riyadh nfc = (7, 2) := by
  decide

/-- C1 amended: for Riyadh × National Food Co., the ×1.4 price multiplier
applies exactly on [Jun 1, Aug 31], while the "unjustified price increase"
label and the extra Poisson(5) complaints apply exactly from Jun 1 on, with
no upper bound. -/
theorem C1_rule1_scope (src : RandomSource) (n : Nat) (d : Date) (p : String)
    (bp : ℚ) :
    ((dateOf 6 1 ≤ d ∧ d ≤ dateOf 8 31) →
      apply_scenarios src n d p riyadh nfc bp = (max (bp * (14/10)) (bp * (1/2)), n)) ∧
    (¬ (dateOf 6 1 ≤ d ∧ d ≤ dateOf 8 31) →
      apply_scenarios src n d p riyadh nfc bp
        = (max (bp * (1 + src.normal n 0 (5/100))) (bp * (1/2)), n + 1)) ∧
    (get_scenario_type d p riyadh nfc = labelUnjustified ↔ dateOf 6 1 ≤ d) ∧
    (dateOf 6 1 ≤ d →
      generate_complaints src n d p riyadh nfc
        = (src.poisson n 2 + src.poisson (n + 1) 5, n + 2)) ∧
    (¬ dateOf 6 1 ≤ d →
      generate_complaints src n d p riyadh nfc = (src.poisson n 2, n + 1)) := by
  refine ⟨?_, ?_, ⟨?_, ?_⟩, ?_, ?_⟩
  · intro h
    simp only [apply_scenarios]
    split_ifs with h1 h2 h3 h4 h5
    · rfl
    · exact absurd ⟨trivial, trivial, h.1, h.2⟩ h1
    · exact absurd ⟨trivial, trivial, h.1, h.2⟩ h1
    · exact absurd ⟨trivial, trivial, h.1, h.2⟩ h1
    · exact absurd ⟨trivial, trivial, h.1, h.2⟩ h1
    · exact absurd ⟨trivial, trivial, h.1, h.2⟩ h1
  · intro h
    simp only [apply_scenarios]
    split_ifs with h1 h2 h3 h4 h5
    · exact absurd ⟨h1.2.2.1, h1.2.2.2⟩ h
    · exact absurd h2.1 (by decide)
    · exact absurd h3.2.2 (by decide)
    · exact absurd h4.1 (by decide)
    · exact absurd h5.1 (by decide)
    · rfl
  · intro hlab
    by_contra hd
    simp only [get_scenario_type] at hlab
    rw [if_neg (fun hc => hd hc.2.2)] at hlab
    rw [if_neg (fun hc => absurd hc.1 (by decide))] at hlab
    rw [if_neg (fun hc => absurd hc.2.2 (by decide))] at hlab
    rw [if_neg (fun hc => absurd hc.1 (by decide))] at hlab
    rw [if_neg (fun hc => absurd hc.1 (by decide))] at hlab
    exact absurd hlab (by decide)
  · intro hd
    simp only [get_scenario_type]
    rw [if_pos ⟨trivial, trivial, hd⟩]
  · intro hd
    simp only [generate_complaints]
    rw [if_pos ⟨trivial, trivial, hd⟩]
    simp [Nat.max_zero]
  · intro hd
    simp only [generate_complaints]
    rw [if_neg (fun hc => hd hc.2.2)]
    rw [if_neg (fun hc => absurd hc.1 (by decide))]
    simp [Nat.max_zero]

/-- Witness for C1 (amended): July 1 lies inside the window, so the ×1.4
multiplier branch is taken with no random draw consumed. -/
theorem C1_rule1_scope_witness :
    apply_scenarios zeroSrc 0 (dateOf 7 1) ("سكر") riyadh nfc (7/2)
      = (max ((7/2 : ℚ) * (14/10)) ((7/2 : ℚ) * (1/2)), 0) :=
  (C1_rule1_scope zeroSrc 0 (dateOf 7 1) ("سكر") (7/2)).1 (by decide)

/-- C4 counterexample: (Sep 15, rice, Riyadh, National Food Co.) satisfies
none of the claimed rule conditions — rule 1's claimed window is over, and
the other rules' region/product/company tests all fail — yet the label is
the rule-1 label, not "normal". -/
theorem C4_counterexample :
    get_scenario_type (dateOf 9 15) ("أرز") riyadh nfc = labelUnjustified ∧
    labelUnjustified ≠ labelNormal ∧
    ¬ (dateOf 6 1 ≤ dateOf 9 15 ∧ dateOf 9 15 ≤ dateOf 8 31) ∧
    riyadh ≠ jeddah ∧ nfc ≠ modernMarketing ∧ ("أرز" ∉ [sugar, flour]) ∧
    riyadh ≠ hail ∧ nfc ≠ comprehensiveSupply ∧ ("أرز" ≠ coffee) := by
  decide

/-- C4 amended: with the rule conditions as implemented (rules 1 and 2 test
only a lower date bound), every combination in rule 1's claimed window gets
the rule-1 label — indeed every Riyadh × National Food Co. combination from
Jun 1 on does, first match wins — and a combination matching none of the
implemented rules is labelled "normal". -/
theorem C4_precedence (d : Date) (p rg c : String) :
    ((rg = riyadh ∧ c = nfc ∧ dateOf 6 1 ≤ d ∧ d ≤ dateOf 8 31) →
      get_scenario_type d p rg c = labelUnjustified) ∧
    ((rg = riyadh ∧ c = nfc ∧ dateOf 6 1 ≤ d) →
      get_scenario_type d p rg c = labelUnjustified) ∧
    (¬ (rg = riyadh ∧ c = nfc ∧ dateOf 6 1 ≤ d) →
      ¬ (rg = jeddah ∧ c = modernMarketing ∧ dateOf 3 1 ≤ d) →
      ¬ (p ∈ [sugar, flour] ∧ dateOf 9 1 ≤ d
          ∧ c ∈ [integratedDist, centralMarkets, unitedConsumer]) →
      ¬ (rg = hail ∧ p = cookingOil) →
      ¬ (c = comprehensiveSupply ∧ p = coffee) →
      get_scenario_type d p rg c = labelNormal) := by
  refine ⟨?_, ?_, ?_⟩
  · intro h
    simp only [get_scenario_type]
    rw [if_pos ⟨h.1, h.2.1, h.2.2.1⟩]
  · intro h
    simp only [get_scenario_type]
    rw [if_pos h]
  · intro h1 h2 h3 h4 h5
    simp only [get_scenario_type]
    rw [if_neg h1, if_neg h2, if_neg h3, if_neg h4, if_neg h5]

/-- Witness for C4 (amended): July 1, coffee, Riyadh, National Food Co. -/
theorem C4_precedence_witness :
    get_scenario_type (dateOf 7 1) ("قهوة") riyadh nfc = labelUnjustified :=
  (C4_precedence (dateOf 7 1) ("قهوة") riyadh nfc).1 ⟨rfl, rfl, by decide, by decide⟩

/-! ### app.py table size, in-place flagging, threshold detector -/

theorem app_genRows_length (src : RandomSource) : ∀ (ks : List Key) (n : Nat),
    (App.genRows src n ks).length = ks.length := by
  intro ks
  induction ks with
  | nil => intro n; rfl
  | cons k ks ih => intro n; simp [App.genRows, ih]

theorem app_generate_data_length (src : RandomSource) :
    (App.generate_data src).length = 9100 := by
  rw [App.generate_data, app_genRows_length]
  rw [List.length_product, List.length_product, List.length_product]
  decide

/-- C2 counterexample: the Jan 1 – Mar 31 2024 run yields 9100 rows (91 days
in a leap year), not 9000. -/
theorem C2_counterexample :
    (App.generate_data zeroSrc).length = 9100 ∧ (9100 : Nat) ≠ 9000 :=
  ⟨app_generate_data_length zeroSrc, by decide⟩

/-- C2 amended: for every seeded stream, the app generator's row count is
|dates| × |products| × |regions| × |companies|, and the date range Jan 1 –
Mar 31 2024 contains 91 days, so the table has 91 × 5 × 5 × 4 = 9100 rows
(and its rows carry no scenario-label column at all). -/
theorem C2_row_count (src : RandomSource) :
    (App.generate_data src).length
      = (date_range (dateOf 1 1) (dateOf 3 31)).length
          * (App.products.length * (App.regions.length * App.companies.length)) ∧
    (date_range (dateOf 1 1) (dateOf 3 31)).length = 91 ∧
    (App.generate_data src).length = 9100 := by
  refine ⟨?_, by decide, app_generate_data_length src⟩
  rw [App.generate_data, app_genRows_length]
  rw [List.length_product, List.length_product, List.length_product]

set_option maxRecDepth 4000 in
/-- C3 counterexample: after the call, the caller's one-row table is no
longer what was passed in — it now carries the `is_anomaly` column. -/
theorem C3_counterexample :
    (App.detect_anomalies_simple sqZero [rowW]).2 ≠ [rowW] := by
  with_unfolding_all decide

/-- C3 amended: `detect_anomalies_simple` assigns the flag on the very
table it was given and returns that table: the returned table and the
caller's table coincide, and they differ from the input only in the
`is_anomaly` column. -/
theorem C3_in_place (sq : ℚ → ℚ) (df : List App.Row) :
    (App.detect_anomalies_simple sq df).1 = (App.detect_anomalies_simple sq df).2 ∧
    ((App.detect_anomalies_simple sq df).2).map App.stripFlag = df.map App.stripFlag := by
  refine ⟨rfl, ?_⟩
  simp only [App.detect_anomalies_simple, List.map_map]
  rfl

/-- C8: a row emitted by the threshold detector is flagged exactly when its
price strictly exceeds mean + 2·std, both statistics computed over the
subset passed in (a NaN statistic flags nothing), and the empty input
yields an empty result — zero anomalies. -/
theorem C8_threshold_detector (sq : ℚ → ℚ) (df : List App.Row) :
    (∀ r ∈ (App.detect_anomalies_simple sq df).1,
      (r.is_anomaly = some true ↔
        ∃ m s, pmean (df.map App.Row.price) = some m ∧
          App.pstd sq (df.map App.Row.price) = some s ∧ m + 2 * s < r.price)) ∧
    (App.detect_anomalies_simple sq []).1 = [] := by
  constructor
  · intro r hr
    simp only [App.detect_anomalies_simple, List.mem_map] at hr
    obtain ⟨r₀, hr₀, rfl⟩ := hr
    cases hm : pmean (df.map App.Row.price) with
    | none => simp [hm, gtNaN]
    | some m =>
      cases hs : App.pstd sq (df.map App.Row.price) with
      | none => simp [hm, hs, gtNaN]
      | some s => simp [hm, hs, gtNaN]
  · rfl

set_option maxRecDepth 4000 in
/-- Witness for C8 at a concrete two-row table. -/
theorem C8_threshold_detector_witness :
    rowW2.is_anomaly = some true ↔
      ∃ m s, pmean (dfW2.map App.Row.price) = some m ∧
        App.pstd sqZero (dfW2.map App.Row.price) = some s ∧ m + 2 * s < rowW2.price :=
  (C8_threshold_detector sqZero dfW2).1 rowW2 (by with_unfolding_all decide)

/-! ### Insight extractor and statistical summary -/

/-- C9: a table with no "normal"-labelled row yields no insight, even when
rule-1-labelled rows are present: the "normal" mean is NaN and the price
comparison is then false for every row. -/
theorem C9_no_normal_rows (df : List Obs)
    (h : ∀ r ∈ df, r.scenario_type ≠ labelNormal) :
    get_analysis_insights df = [] := by
  have hnil : df.filter (fun r => r.scenario_type == labelNormal) = [] := by
    rw [List.filter_eq_nil_iff]
    intro a ha
    simpa using h a ha
  simp only [get_analysis_insights, hnil]
  simp [pmean, gtNaN, Bool.and_false]

/-- Witness for C9: one rule-1-labelled row and no "normal" row. -/
theorem C9_no_normal_rows_witness : get_analysis_insights dfNoNormal = [] :=
  C9_no_normal_rows dfNoNormal (by decide)

/-- C10: the statistical summarizer produces no summary record on the empty
table — the min/max of the empty date column is NaT and formatting it
raises. -/
theorem C10_empty_summary : get_statistical_summary [] = none := rfl
